import Mathlib

/-!
Shallow embedding of `src/ecp.py` (EBI Cloud Portal CLI).

Decoded response bodies are modelled by the inductive type `Json`.
HTTP effects are abstracted: the secondary status fetch performed during
deployment-list rendering is a parameter `fetch : String → Except Unit Json`
(the Python call `requests.get(href).json()` which may raise), rendering is
modelled by the structured content handed to the printing routines, and a
Python exception escaping a function is `Except.error ()`.
-/

/-- Decoded JSON values, as returned by `response.json()`. -/
inductive Json where
  | null : Json
  | bool (b : Bool) : Json
  | num (n : Int) : Json
  | str (s : String) : Json
  | arr (xs : List Json) : Json
  | obj (fields : List (String × Json)) : Json

/-- Dictionary lookup on the field list of a JSON object (first match). -/
def lookupField : List (String × Json) → String → Option Json
  | [], _ => none
  | (k, v) :: rest, key => if k == key then some v else lookupField rest key

/-- `j[key]` on a decoded value: `some` when `j` is an object holding `key`,
`none` otherwise (Python raises `KeyError`/`TypeError` there, which callers
of this helper turn into `Except.error` or a defaulted value, following the
source line by line). -/
def Json.get? : Json → String → Option Json
  | .obj fields, key => lookupField fields key
  | _, _ => none

/-- The membership test `key in j` used for the list-envelope check. -/
def Json.hasKey (j : Json) (key : String) : Bool :=
  (j.get? key).isSome

/-- Field access that must yield a string: the itemized printers concatenate
the field into a message (`'- ' + config['name']`), so a missing key
(`KeyError`) or a non-string value (`TypeError` on `+`) raises. -/
def getStr (j : Json) (key : String) : Except Unit String :=
  match j.get? key with
  | some (Json.str s) => Except.ok s
  | _ => Except.error ()

/-- Field access that must yield a list to be iterated (`for field in
cred['fields']`); missing key or non-list value raises. -/
def getArr (j : Json) (key : String) : Except Unit (List Json) :=
  match j.get? key with
  | some (Json.arr xs) => Except.ok xs
  | _ => Except.error ()

/-- `resp['_embedded'][listKey]` followed by iteration, as in every listing
branch of `ECP.prettyprint` (src/ecp.py:41,59,64,73,83). -/
def getEmbList (resp : Json) (listKey : String) : Except Unit (List Json) :=
  match resp.get? "_embedded" with
  | some emb =>
    match emb.get? listKey with
    | some (Json.arr xs) => Except.ok xs
    | _ => Except.error ()
  | none => Except.error ()

/-- `ECP.get_url` (src/ecp.py:103-125). The chained comparisons build a
resource path; an unknown resource leaves `resourcepath` unbound, the
`UnboundLocalError` is caught, a usage message is printed to stderr and the
function returns `None` — modelled as `none`. -/
def get_url (resource name : String) : Option String :=
  let baseurl := "https://api.portal.tsi.ebi.ac.uk"
  if resource == "cred" || resource == "creds" then
    some (baseurl ++ "/cloudproviderparameters/" ++ name)
  else if resource == "param" || resource == "params" then
    some (baseurl ++ "/configuration/deploymentparameters/" ++ name)
  else if resource == "config" || resource == "configs" then
    some (baseurl ++ "/configuration/" ++ name)
  else if resource == "app" || resource == "apps" then
    some (baseurl ++ "/application/" ++ name)
  else if resource == "deployment" || resource == "deployments" then
    some (baseurl ++ "/deployment/" ++ name)
  else if resource == "logs" then
    some (baseurl ++ "/deployment/" ++ name ++ "/logs")
  else if resource == "destroylogs" then
    some (baseurl ++ "/deployment/" ++ name ++ "/destroylogs")
  else if resource == "status" then
    some (baseurl ++ "/deployment/" ++ name ++ "/status")
  else none

/-- The fixed API base of `get_url`. -/
def baseurl : String := "https://api.portal.tsi.ebi.ac.uk"

/-- Python `s.replace(chr(10), chr(0))`-style token cleanup: `get_token`
reads token files with `.read().replace(backslash-n, empty)`, which removes
every newline character, not only a trailing one (src/ecp.py:131,136). -/
def stripNewlines (s : String) : String :=
  String.mk (s.data.filter (fun c => c != '\n'))

/-- Content `ECP.login` writes to the default token file: `print(text,
file=tokenfile)` appends one newline (src/ecp.py:24-25). -/
def login_written_file (token : String) : String :=
  token ++ "\n"

/-- `ECP.get_token` (src/ecp.py:128-141), modelled on the token value (the
derived `Authorization` header is `Bearer` + token and carries no extra
logic). The first parameter models the explicit `--token` argument: `none`
= argument absent, `some none` = path given but unreadable (`open` raises
`IOError`), `some (some c)` = readable file with content `c`. The second is
the `ECP_TOKEN` environment variable, the third the content of the default
file `~/.ecp_token` when it exists. -/
def get_token (tokenfile : Option (Option String)) (envToken : Option String)
    (defaultFile : Option String) : Except Unit String :=
  match tokenfile with
  | some none => Except.error ()
  | some (some c) => Except.ok (stripNewlines c)
  | none =>
    match envToken with
    | some t => Except.ok t
    | none =>
      match defaultFile with
      | some c => Except.ok (stripNewlines c)
      | none => Except.ok ""

/-- The verb vocabulary of `main` (src/ecp.py:207). -/
def verbs : List String := ["get", "create", "delete", "stop", "login"]

/-- The resource vocabulary of `main` (src/ecp.py:208). -/
def resources : List String :=
  ["cred", "creds", "param", "params", "config", "configs", "app", "apps",
   "deployment", "deployments", "logs", "status"]

/-- Outcome of the driver `main` (src/ecp.py:181-223) up to the point where
`make_request` is invoked: `loginAction` is the early login return,
`usageError` means a usage message was printed to stderr and the function
returned with no request performed, and `request verb resource name` means
`make_request(verb, resource, name)` is invoked with exactly these
arguments. -/
inductive MainResult where
  | loginAction : MainResult
  | usageError : MainResult
  | request (verb resource name : String) : MainResult
deriving DecidableEq

/-- Resource-vocabulary check of `main` (src/ecp.py:218-222), after the
stop shortcut has been applied. -/
def mainResourceCheck (verb resource name : String) : MainResult :=
  if resources.contains resource then MainResult.request verb resource name
  else MainResult.usageError

/-- The driver `main` (src/ecp.py:203-222): early return for `login`, verb
vocabulary check, the `stop <name>` shortcut (src/ecp.py:213-216: when the
verb is `stop` and the resource argument is not literally `deployment`, the
resource argument becomes the name and the resource is forced to
`deployment`), then the resource vocabulary check. -/
def mainFlow (verb resource name : String) : MainResult :=
  if verb == "login" then MainResult.loginAction
  else if !(verbs.contains verb) then MainResult.usageError
  else if verb == "stop" && resource != "deployment" then
    mainResourceCheck verb "deployment" resource
  else
    mainResourceCheck verb resource name

/-- Whether the driver outcome is a dispatched request on the given
resource. -/
def MainResult.requestsResource : MainResult → String → Bool
  | .request _ r _, res => r == res
  | _, _ => false

/-- Two-digit zero padding, as produced by the strftime fields `%H`, `%M`,
`%d`, `%m`. -/
def pad2 (n : Int) : String :=
  if n < 10 then "0" ++ toString n else toString n

/-- Proleptic Gregorian calendar date of a day count relative to
1970-01-01, the civil-from-days algorithm used by every C/Python local-time
conversion; returns (year, month, day). -/
def civilFromDays (z0 : Int) : Int × Int × Int :=
  let z := z0 + 719468
  let era := Int.fdiv z 146097
  let doe := z - era * 146097
  let yoe := Int.fdiv (doe - Int.fdiv doe 1460 + Int.fdiv doe 36524 - Int.fdiv doe 146096) 365
  let doy := doe - (365 * yoe + Int.fdiv yoe 4 - Int.fdiv yoe 100)
  let mp := Int.fdiv (5 * doy + 2) 153
  let d := doy - Int.fdiv (153 * mp + 2) 5 + 1
  let m := if mp < 10 then mp + 3 else mp - 9
  (if m <= 2 then yoe + era * 400 + 1 else yoe + era * 400, m, d)

/-- The STARTED cell computation of the deployment table (src/ecp.py:42-44):
`datetime.datetime.fromtimestamp(startedTime / 1000.0).strftime(time-format)`
with format hour:minute day-month-year. `fromtimestamp` converts the epoch
instant to civil time in the local timezone, modelled by its UTC offset
`tzSeconds`; the display truncates below the minute, so the epoch
milliseconds are taken to whole seconds by floor division. -/
def formatStarted (tzSeconds ms : Int) : String :=
  let t := Int.fdiv ms 1000 + tzSeconds
  let days := Int.fdiv t 86400
  let s := t - days * 86400
  let hh := Int.fdiv s 3600
  let mm := Int.fdiv (s - hh * 3600) 60
  match civilFromDays days with
  | (y, m, d) => pad2 hh ++ ":" ++ pad2 mm ++ " " ++ pad2 d ++ "-" ++ pad2 m ++ "-" ++ toString y

/-- `ECP.get_depl_status` (src/ecp.py:32-33): follows the record's embedded
status link and performs the secondary GET, returning its decoded body.
Any failure — missing link fields, a raising request, an undecodable
body — raises, i.e. yields `Except.error`. -/
def get_depl_status (fetch : String → Except Unit Json) (depl : Json) : Except Unit Json :=
  match depl.get? "_links" with
  | some links =>
    match links.get? "status" with
    | some st =>
      match st.get? "href" with
      | some (Json.str href) => fetch href
      | _ => Except.error ()
    | none => Except.error ()
  | none => Except.error ()

/-- Header row of the deployment table (src/ecp.py:40). -/
def deplHeader : List Json :=
  [Json.str "REFERENCE", Json.str "APP NAME", Json.str "STARTED", Json.str "STATUS"]

/-- The guarded STATUS extraction (src/ecp.py:49-52): `status_r[status-key]`
inside `try`, where the bare `except` substitutes the literal
`Error getting status` when the key is missing (or the fetched body is not
an object, so that indexing raises `TypeError`). -/
def statusCell (status_r : Json) : Json :=
  match status_r.get? "status" with
  | some s => s
  | none => Json.str "Error getting status"

/-- Row construction of the deployment table after the STARTED cell is
known (src/ecp.py:48-54): the secondary status fetch is performed OUTSIDE
any try block, so its exceptions propagate; only the extraction
`status_r[status-key]` is guarded (see `statusCell`). The row then reads
`reference` and `applicationName`, raising `KeyError` if either is
absent. -/
def deplRowAux (fetch : String → Except Unit Json) (depl : Json) (start_t : String) :
    Except Unit (List Json) :=
  match get_depl_status fetch depl with
  | Except.error e => Except.error e
  | Except.ok status_r =>
    match depl.get? "reference", depl.get? "applicationName" with
    | some ref, some app => Except.ok [ref, app, Json.str start_t, statusCell status_r]
    | some _, none => Except.error ()
    | none, _ => Except.error ()

/-- One row of the deployment table (src/ecp.py:42-54): STARTED is the
empty string when `startedTime` is absent, the formatted local time when it
is a number (division of a non-number raises), then `deplRowAux`. -/
def deplRow (fetch : String → Except Unit Json) (tzSeconds : Int) (depl : Json) :
    Except Unit (List Json) :=
  match depl.get? "startedTime" with
  | none => deplRowAux fetch depl ""
  | some (Json.num ms) => deplRowAux fetch depl (formatStarted tzSeconds ms)
  | some _ => Except.error ()

/-- One row of the application table (src/ecp.py:60). -/
def appRow (app : Json) : Except Unit (List Json) :=
  match app.get? "name", app.get? "version" with
  | some n, some v => Except.ok [n, v]
  | some _, none => Except.error ()
  | none, _ => Except.error ()

/-- The four printed lines per configuration record (src/ecp.py:65-68). -/
def configItem (c : Json) : Except Unit (List String) :=
  match getStr c "name" with
  | Except.error e => Except.error e
  | Except.ok name =>
    match getStr c "cloudProviderParametersName" with
    | Except.error e => Except.error e
    | Except.ok cpp =>
      match getStr c "sshKey" with
      | Except.error e => Except.error e
      | Except.ok ssh =>
        match getStr c "deploymentParametersName" with
        | Except.error e => Except.error e
        | Except.ok dpn =>
          Except.ok ["- " ++ name ++ ":",
                     "    Cloud provider parameters: " ++ cpp,
                     "    SSH Public Key: " ++ ssh,
                     "    Parameters: " ++ dpn]

/-- One key/value bullet line (src/ecp.py:78,87). -/
def fieldLine (f : Json) : Except Unit String :=
  match getStr f "key" with
  | Except.error e => Except.error e
  | Except.ok k =>
    match getStr f "value" with
    | Except.error e => Except.error e
    | Except.ok v => Except.ok ("    * " ++ k ++ ": " ++ v)

/-- The printed lines per credential record (src/ecp.py:74-78). -/
def credItem (c : Json) : Except Unit (List String) :=
  match getStr c "name" with
  | Except.error e => Except.error e
  | Except.ok name =>
    match getStr c "cloudProvider" with
    | Except.error e => Except.error e
    | Except.ok prov =>
      match getArr c "fields" with
      | Except.error e => Except.error e
      | Except.ok fs =>
        match fs.mapM fieldLine with
        | Except.error e => Except.error e
        | Except.ok ls =>
          Except.ok (("- " ++ name ++ ":") :: ("    Provider: " ++ prov) ::
                     "    Parameters: " :: ls)

/-- The printed lines per deployment-parameters record (src/ecp.py:84-87). -/
def paramItem (p : Json) : Except Unit (List String) :=
  match getStr p "name" with
  | Except.error e => Except.error e
  | Except.ok name =>
    match getArr p "fields" with
    | Except.error e => Except.error e
    | Except.ok fs =>
      match fs.mapM fieldLine with
      | Except.error e => Except.error e
      | Except.ok ls =>
        Except.ok (("- " ++ name ++ ":") :: "    Parameters: " :: ls)

/-- Structured content handed to the printing routines by
`ECP.prettyprint`: a cell table passed to `print_table`, itemized lines
printed directly, or the block-style `yaml.safe_dump` of the whole
structure (src/ecp.py:90-94). -/
inductive Rendered where
  | table (rows : List (List Json)) : Rendered
  | items (lines : List String) : Rendered
  | yamlDump (j : Json) : Rendered

/-- The five resource-specific strategies of `ECP.prettyprint` plus the
generic fallback. -/
inductive Strategy where
  | deplTable : Strategy
  | appTable : Strategy
  | configItems : Strategy
  | credItems : Strategy
  | paramItems : Strategy
  | genericDump : Strategy
deriving DecidableEq

/-- Strategy selection of `ECP.prettyprint` (src/ecp.py:38,56,62,71,81,90):
every branch condition is a comparison of the resource kind plus the
list-envelope membership test; nothing else decides which renderer runs. -/
def selectStrategy (res : String) (hasEnvelope : Bool) : Strategy :=
  if res == "deployment" || res == "deployments" then
    (if hasEnvelope then Strategy.deplTable else Strategy.genericDump)
  else if res == "app" || res == "apps" then
    (if hasEnvelope then Strategy.appTable else Strategy.genericDump)
  else if res == "config" || res == "configs" then
    (if hasEnvelope then Strategy.configItems else Strategy.genericDump)
  else if res == "cred" || res == "creds" then
    (if hasEnvelope then Strategy.credItems else Strategy.genericDump)
  else if res == "param" || res == "params" then
    (if hasEnvelope then Strategy.paramItems else Strategy.genericDump)
  else Strategy.genericDump

/-- Body of each `ECP.prettyprint` branch. -/
def runStrategy (fetch : String → Except Unit Json) (tzSeconds : Int) (resp : Json) :
    Strategy → Except Unit Rendered
  | Strategy.deplTable =>
    (match getEmbList resp "deploymentResourceList" with
     | Except.error e => Except.error e
     | Except.ok ds =>
       match ds.mapM (deplRow fetch tzSeconds) with
       | Except.error e => Except.error e
       | Except.ok rows => Except.ok (Rendered.table (deplHeader :: rows)))
  | Strategy.appTable =>
    (match getEmbList resp "applicationResourceList" with
     | Except.error e => Except.error e
     | Except.ok apps =>
       match apps.mapM appRow with
       | Except.error e => Except.error e
       | Except.ok rows =>
         Except.ok (Rendered.table ([Json.str "NAME", Json.str "VERSION"] :: rows)))
  | Strategy.configItems =>
    (match getEmbList resp "configurationResourceList" with
     | Except.error e => Except.error e
     | Except.ok cs =>
       match cs.mapM configItem with
       | Except.error e => Except.error e
       | Except.ok ls => Except.ok (Rendered.items ls.flatten))
  | Strategy.credItems =>
    (match getEmbList resp "cloudProviderParametersResourceList" with
     | Except.error e => Except.error e
     | Except.ok cs =>
       match cs.mapM credItem with
       | Except.error e => Except.error e
       | Except.ok ls => Except.ok (Rendered.items ls.flatten))
  | Strategy.paramItems =>
    (match getEmbList resp "configurationDeploymentParametersResourceList" with
     | Except.error e => Except.error e
     | Except.ok ps =>
       match ps.mapM paramItem with
       | Except.error e => Except.error e
       | Except.ok ls => Except.ok (Rendered.items ls.flatten))
  | Strategy.genericDump => Except.ok (Rendered.yamlDump resp)

/-- `ECP.prettyprint` (src/ecp.py:36-94), written with the source's branch
conditions: each resource-kind comparison guards an envelope test; a
matching kind with envelope builds the table/item lines (tables also print
when only the header was appended); every other case reaches the final
`len(table) > 0` test with an empty table and dumps the structure as
block-style YAML. -/
def prettyprint (fetch : String → Except Unit Json) (tzSeconds : Int) (resp : Json)
    (res : String) : Except Unit Rendered :=
  if res == "deployment" || res == "deployments" then
    (if resp.hasKey "_embedded" then runStrategy fetch tzSeconds resp Strategy.deplTable
     else Except.ok (Rendered.yamlDump resp))
  else if res == "app" || res == "apps" then
    (if resp.hasKey "_embedded" then runStrategy fetch tzSeconds resp Strategy.appTable
     else Except.ok (Rendered.yamlDump resp))
  else if res == "config" || res == "configs" then
    (if resp.hasKey "_embedded" then runStrategy fetch tzSeconds resp Strategy.configItems
     else Except.ok (Rendered.yamlDump resp))
  else if res == "cred" || res == "creds" then
    (if resp.hasKey "_embedded" then runStrategy fetch tzSeconds resp Strategy.credItems
     else Except.ok (Rendered.yamlDump resp))
  else if res == "param" || res == "params" then
    (if resp.hasKey "_embedded" then runStrategy fetch tzSeconds resp Strategy.paramItems
     else Except.ok (Rendered.yamlDump resp))
  else Except.ok (Rendered.yamlDump resp)

/-- What `ECP.print_request` (src/ecp.py:159-179) emits: the raw response
text when the body does not decode, `json.dumps(body, indent=2)` under the
raw-JSON flag, the `prettyprint` result for `get`, or `yaml.safe_dump(body,
indent=2, default_flow_style=False)` for every other verb. -/
inductive Output where
  | rawText : Output
  | jsonDump (j : Json) : Output
  | pretty (r : Except Unit Rendered) : Output
  | yamlText (j : Json) : Output

/-- `ECP.print_request` (src/ecp.py:159-179). `decoded` is the result of
`response.json()`: `none` when decoding raises (the raw text is printed and
the function returns). -/
def print_request (fetch : String → Except Unit Json) (tzSeconds : Int)
    (decoded : Option Json) (verb res : String) (jsondump : Bool) : Output :=
  match decoded with
  | none => Output.rawText
  | some j =>
    if jsondump then Output.jsonDump j
    else if verb == "get" then Output.pretty (prettyprint fetch tzSeconds j res)
    else Output.yamlText j

/-! ### Helper lemmas -/

/-- An unknown resource makes `get_url` return `none`: every branch guard of
the comparison chain is false. -/
theorem get_url_none_of_unknown (r name : String)
    (hc : resources.contains r = false) (hd : r ≠ "destroylogs") :
    get_url r name = none := by
  simp only [resources, List.contains_cons, List.contains_nil,
    Bool.or_eq_false_iff] at hc
  obtain ⟨h1, h2, h3, h4, h5, h6, h7, h8, h9, h10, h11, h12, -⟩ := hc
  have hd' : (r == "destroylogs") = false := beq_eq_false_iff_ne.mpr hd
  simp [get_url, h1, h2, h3, h4, h5, h6, h7, h8, h9, h10, h11, h12, hd']

/-- For a verb other than `stop` and `login`, an out-of-vocabulary resource
stops the driver at the usage check. -/
theorem mainFlow_usageError_of_unknown (v r n : String)
    (hv1 : v ≠ "stop") (hv2 : v ≠ "login") (hr : resources.contains r = false) :
    mainFlow v r n = MainResult.usageError := by
  have hbl : (v == "login") = false := beq_eq_false_iff_ne.mpr hv2
  have hbs : (v == "stop") = false := beq_eq_false_iff_ne.mpr hv1
  unfold mainFlow
  rw [hbl, hbs]
  cases hvc : verbs.contains v
  · simp
  · have hr' : r ∉ resources := by simpa using hr
    simp [mainResourceCheck, hr']

/-- Whenever the driver dispatches a request, the dispatched resource is in
the vocabulary. -/
theorem mainFlow_request_in_resources (v r n v2 r2 n2 : String)
    (h : mainFlow v r n = MainResult.request v2 r2 n2) :
    resources.contains r2 = true := by
  unfold mainFlow at h
  split at h
  · exact absurd h (by simp)
  · split at h
    · exact absurd h (by simp)
    · split at h <;>
      · unfold mainResourceCheck at h
        split at h
        · injection h with hv hr hn
          subst hr
          assumption
        · exact absurd h (by simp)

/-- A row that escapes `deplRowAux` without raising has exactly the shape
built on src/ecp.py:54, with the STATUS cell produced by the guarded
extraction from a successfully fetched status body. -/
theorem deplRowAux_ok_shape (fetch : String → Except Unit Json) (depl : Json)
    (s : String) (row : List Json) (h : deplRowAux fetch depl s = Except.ok row) :
    ∃ ref app status_r, get_depl_status fetch depl = Except.ok status_r ∧
      row = [ref, app, Json.str s, statusCell status_r] := by
  unfold deplRowAux at h
  split at h
  · exact absurd h (by simp)
  · next status_r heq =>
    split at h
    · next ref app h1 h2 =>
      injection h with h3
      exact ⟨ref, app, status_r, heq, h3.symm⟩
    · exact absurd h (by simp)
    · exact absurd h (by simp)

/-- When `startedTime` is absent the row is built with an empty STARTED
string (src/ecp.py:45-46). -/
theorem deplRow_eq_aux_of_none (fetch : String → Except Unit Json) (tz : Int)
    (depl : Json) (hst : depl.get? "startedTime" = none) :
    deplRow fetch tz depl = deplRowAux fetch depl "" := by
  unfold deplRow
  rw [hst]

/-- When `startedTime` is a number the row is built with the formatted
local time (src/ecp.py:42-44). -/
theorem deplRow_eq_aux_of_num (fetch : String → Except Unit Json) (tz : Int)
    (depl : Json) (ms : Int) (hst : depl.get? "startedTime" = some (Json.num ms)) :
    deplRow fetch tz depl = deplRowAux fetch depl (formatStarted tz ms) := by
  unfold deplRow
  rw [hst]

/-- A raising secondary fetch propagates out of `deplRowAux`: the fetch is
outside the try block. -/
theorem deplRowAux_error_of_fetch_error (fetch : String → Except Unit Json)
    (depl : Json) (s : String) (h : get_depl_status fetch depl = Except.error ()) :
    deplRowAux fetch depl s = Except.error () := by
  unfold deplRowAux
  rw [h]

/-- A raising secondary fetch propagates out of the whole row
construction. -/
theorem deplRow_error_of_fetch_error (fetch : String → Except Unit Json)
    (tz : Int) (depl : Json) (h : get_depl_status fetch depl = Except.error ()) :
    deplRow fetch tz depl = Except.error () := by
  unfold deplRow
  split
  · exact deplRowAux_error_of_fetch_error _ _ _ h
  · exact deplRowAux_error_of_fetch_error _ _ _ h
  · rfl

/-- Shape of any row that the deployment-table loop appends without
raising. -/
theorem deplRow_ok_shape (fetch : String → Except Unit Json) (tz : Int)
    (depl : Json) (row : List Json) (h : deplRow fetch tz depl = Except.ok row) :
    ∃ ref app status_r st, get_depl_status fetch depl = Except.ok status_r ∧
      row = [ref, app, Json.str st, statusCell status_r] ∧
      ((depl.get? "startedTime" = none ∧ st = "") ∨
       (∃ ms, depl.get? "startedTime" = some (Json.num ms) ∧ st = formatStarted tz ms)) := by
  unfold deplRow at h
  split at h
  · next hst =>
    obtain ⟨ref, app, sr, hf, hr⟩ := deplRowAux_ok_shape _ _ _ _ h
    exact ⟨ref, app, sr, "", hf, hr, Or.inl ⟨hst, rfl⟩⟩
  · next ms hst =>
    obtain ⟨ref, app, sr, hf, hr⟩ := deplRowAux_ok_shape _ _ _ _ h
    exact ⟨ref, app, sr, formatStarted tz ms, hf, hr, Or.inr ⟨ms, hst, rfl⟩⟩
  · exact absurd h (by simp)

/-! ### Concrete values used to exercise the deployment listing -/

/-- A secondary status fetch that raises (network failure or an
undecodable status body). -/
def failFetch : String → Except Unit Json := fun _ => Except.error ()

/-- A secondary status fetch succeeding with a body that has no `status`
field. -/
def emptyObjFetch : String → Except Unit Json := fun _ => Except.ok (Json.obj [])

/-- A secondary status fetch succeeding with a proper status body. -/
def okStatusFetch : String → Except Unit Json :=
  fun _ => Except.ok (Json.obj [("status", Json.str "RUNNING")])

/-- A deployment record without `startedTime`, carrying the embedded status
link. -/
def deplRecord : Json :=
  Json.obj [("reference", Json.str "r1"), ("applicationName", Json.str "app1"),
    ("_links", Json.obj [("status", Json.obj [("href", Json.str "https://portal/status/r1")])])]

/-- A deployment list envelope holding exactly `deplRecord`. -/
def deplListResp : Json :=
  Json.obj [("_embedded", Json.obj [("deploymentResourceList", Json.arr [deplRecord])])]

/-- Claim C1, counterexample: this deployment listing carries the list
envelope and its single record has a correct status link, yet when the
secondary status fetch raises, the whole listing rendering raises — the
STATUS cell never becomes `Error getting status`, because the fetch on
src/ecp.py:48 sits outside the try block that guards only the field
extraction on src/ecp.py:49-52. -/
theorem claim_C1_counterexample :
    deplListResp.hasKey "_embedded" = true ∧
    prettyprint failFetch 0 deplListResp "deployment" = Except.error () :=
  ⟨rfl, rfl⟩

/-- Claim C1, amended: in deployment list rendering, (1) when the secondary
status fetch succeeds but its result lacks the `status` field, the STATUS
cell of the record equals the literal `Error getting status`; but when the
secondary fetch itself raises, (2) the exception propagates out of the row
construction and (3) out of the rendering of the whole parent listing. -/
theorem claim_C1 :
    (∀ fetch tz depl sr row, get_depl_status fetch depl = Except.ok sr →
        sr.get? "status" = none → deplRow fetch tz depl = Except.ok row →
        row[3]? = some (Json.str "Error getting status")) ∧
    (∀ fetch tz depl, get_depl_status fetch depl = Except.error () →
        deplRow fetch tz depl = Except.error ()) ∧
    (∀ fetch tz resp depl rest,
        getEmbList resp "deploymentResourceList" = Except.ok (depl :: rest) →
        get_depl_status fetch depl = Except.error () →
        prettyprint fetch tz resp "deployment" = Except.error ()) := by
  refine ⟨?_, ?_, ?_⟩
  · intro fetch tz depl sr row hfetch hns hrow
    obtain ⟨ref, app, sr', st, hf', hshape, -⟩ := deplRow_ok_shape _ _ _ _ hrow
    rw [hfetch] at hf'
    injection hf' with hsr
    subst hsr
    subst hshape
    simp [statusCell, hns]
  · intro fetch tz depl hf
    exact deplRow_error_of_fetch_error _ _ _ hf
  · intro fetch tz resp depl rest hemb hf
    have hkey : resp.hasKey "_embedded" = true := by
      unfold getEmbList at hemb
      unfold Json.hasKey
      rcases hr : resp.get? "_embedded" with _ | emb
      · rw [hr] at hemb
        exact absurd hemb (by simp)
      · simp
    rw [show prettyprint fetch tz resp "deployment" =
        (if resp.hasKey "_embedded" then runStrategy fetch tz resp Strategy.deplTable
         else Except.ok (Rendered.yamlDump resp)) from rfl]
    rw [hkey]
    simp only [if_true]
    simp only [runStrategy, hemb]
    rw [List.mapM_cons, deplRow_error_of_fetch_error _ _ _ hf]
    rfl

/-- Claim C1, witness: a record whose status fetch succeeds without a
`status` field yields the literal error cell, and a listing whose record
fetch raises propagates the exception. -/
theorem claim_C1_witness :
    ([Json.str "r1", Json.str "app1", Json.str "",
      Json.str "Error getting status"] : List Json)[3]? =
        some (Json.str "Error getting status") ∧
    prettyprint failFetch 0 deplListResp "deployment" = Except.error () :=
  ⟨claim_C1.1 emptyObjFetch 0 deplRecord (Json.obj [])
      [Json.str "r1", Json.str "app1", Json.str "", Json.str "Error getting status"]
      rfl rfl rfl,
   claim_C1.2.2 failFetch 0 deplListResp deplRecord [] rfl rfl⟩

/-- Claim C2, counterexample: the shortcut on src/ecp.py:214 tests only
`!= deployment`, so the invocation `stop deployments mydep` is NOT left
unchanged: it is rewritten to a request on resource `deployment` with name
`deployments`, discarding the original name argument. -/
theorem claim_C2_counterexample :
    mainFlow "stop" "deployments" "mydep" =
      MainResult.request "stop" "deployment" "deployments" ∧
    mainFlow "stop" "deployments" "mydep" ≠
      MainResult.request "stop" "deployments" "mydep" :=
  ⟨rfl, by decide⟩

/-- Claim C2, amended: for a CLI invocation `stop <X>`, every `X` other
than the literal `deployment` — including the literal `deployments` — is
reinterpreted as `stop deployment <X>` (X becomes the name, the resource is
forced to `deployment`, and any original name argument is discarded); only
`X = deployment` is left unchanged. -/
theorem claim_C2 :
    (∀ x n, x ≠ "deployment" →
        mainFlow "stop" x n = MainResult.request "stop" "deployment" x) ∧
    (∀ n, mainFlow "stop" "deployment" n =
        MainResult.request "stop" "deployment" n) := by
  constructor
  · intro x n hx
    have hbx : (x != "deployment") = true := bne_iff_ne.mpr hx
    unfold mainFlow
    rw [hbx]
    rfl
  · intro n
    rfl

/-- Claim C2, witness: `stop mydep` dispatches a stop request on deployment
`mydep`. -/
theorem claim_C2_witness :
    mainFlow "stop" "mydep" "" = MainResult.request "stop" "deployment" "mydep" :=
  claim_C2.1 "mydep" "" (by decide)

/-- Claim C3, counterexample: `destroylogs` lies outside the resource
vocabulary (the enumeration with its synonym spellings, src/ecp.py:208),
yet URL resolution does not signal an unknown-resource error for it: it
returns a URL (src/ecp.py:117-118). -/
theorem claim_C3_counterexample :
    resources.contains "destroylogs" = false ∧
    get_url "destroylogs" "mydep" =
      some "https://api.portal.tsi.ebi.ac.uk/deployment/mydep/destroylogs" :=
  ⟨by decide, rfl⟩

/-- Claim C3, amended: for every resource kind outside the vocabulary
except `destroylogs`, URL resolution signals the unknown-resource error
(prints usage guidance and returns no URL); and for every kind outside the
vocabulary, under any verb other than `stop` and `login`, the driver prints
usage guidance and returns before the dispatcher performs any request. -/
theorem claim_C3 :
    (∀ r name, resources.contains r = false → r ≠ "destroylogs" →
        get_url r name = none) ∧
    (∀ v r n, v ≠ "stop" → v ≠ "login" → resources.contains r = false →
        mainFlow v r n = MainResult.usageError) :=
  ⟨get_url_none_of_unknown, mainFlow_usageError_of_unknown⟩

/-- Claim C3, witness: an unknown kind resolves to no URL and the driver
stops at the usage check. -/
theorem claim_C3_witness :
    get_url "zzz" "n" = none ∧ mainFlow "get" "zzz" "n" = MainResult.usageError :=
  ⟨claim_C3.1 "zzz" "n" (by decide) (by decide),
   claim_C3.2 "get" "zzz" "n" (by decide) (by decide) (by decide)⟩

/-- Claim C4: the static URL table of `get_url` (src/ecp.py:103-123), for
both spellings of each collection-style kind and for the `logs`/`status`
sub-resource kinds, for every name; and the collection URL produced by an
empty name on the collection-style kinds. (`logs` and `status` have no
collection form: their URLs always carry the `/logs` resp. `/status`
sub-resource suffix around the name slot, so only a non-empty name
addresses a resource.) -/
theorem claim_C4 :
    (∀ name, get_url "cred" name = some (baseurl ++ "/cloudproviderparameters/" ++ name)) ∧
    (∀ name, get_url "creds" name = some (baseurl ++ "/cloudproviderparameters/" ++ name)) ∧
    (∀ name, get_url "param" name = some (baseurl ++ "/configuration/deploymentparameters/" ++ name)) ∧
    (∀ name, get_url "params" name = some (baseurl ++ "/configuration/deploymentparameters/" ++ name)) ∧
    (∀ name, get_url "config" name = some (baseurl ++ "/configuration/" ++ name)) ∧
    (∀ name, get_url "configs" name = some (baseurl ++ "/configuration/" ++ name)) ∧
    (∀ name, get_url "app" name = some (baseurl ++ "/application/" ++ name)) ∧
    (∀ name, get_url "apps" name = some (baseurl ++ "/application/" ++ name)) ∧
    (∀ name, get_url "deployment" name = some (baseurl ++ "/deployment/" ++ name)) ∧
    (∀ name, get_url "deployments" name = some (baseurl ++ "/deployment/" ++ name)) ∧
    (∀ name, get_url "logs" name = some (baseurl ++ "/deployment/" ++ name ++ "/logs")) ∧
    (∀ name, get_url "status" name = some (baseurl ++ "/deployment/" ++ name ++ "/status")) ∧
    get_url "cred" "" = some (baseurl ++ "/cloudproviderparameters/") ∧
    get_url "param" "" = some (baseurl ++ "/configuration/deploymentparameters/") ∧
    get_url "config" "" = some (baseurl ++ "/configuration/") ∧
    get_url "app" "" = some (baseurl ++ "/application/") ∧
    get_url "deployment" "" = some (baseurl ++ "/deployment/") :=
  ⟨fun _ => rfl, fun _ => rfl, fun _ => rfl, fun _ => rfl, fun _ => rfl,
   fun _ => rfl, fun _ => rfl, fun _ => rfl, fun _ => rfl, fun _ => rfl,
   fun _ => rfl, fun _ => rfl, rfl, rfl, rfl, rfl, rfl⟩

/-- Claim C5: (1) for every verb other than `get`, a decodable response is
always rendered as the generic block-style structured dump, never with the
resource-specific table or itemized renderers, whatever the kind and even
when a valid list envelope is present; (2) for `get`, the rendering is the
execution of the strategy selected from the resource kind and the presence
of the list envelope alone — the selection sees nothing else of the
response and never the verb; (3) `get` dispatches to exactly that
rendering. -/
theorem claim_C5 :
    (∀ fetch tz j verb res, verb ≠ "get" →
        print_request fetch tz (some j) verb res false = Output.yamlText j) ∧
    (∀ fetch tz j res, prettyprint fetch tz j res =
        runStrategy fetch tz j (selectStrategy res (j.hasKey "_embedded"))) ∧
    (∀ fetch tz j res, print_request fetch tz (some j) "get" res false =
        Output.pretty (prettyprint fetch tz j res)) := by
  refine ⟨?_, ?_, ?_⟩
  · intro fetch tz j verb res hverb
    have hb : (verb == "get") = false := beq_eq_false_iff_ne.mpr hverb
    unfold print_request
    rw [hb]
    rfl
  · intro fetch tz j res
    unfold prettyprint selectStrategy
    cases hE : j.hasKey "_embedded" <;>
    cases h1 : (res == "deployment" || res == "deployments") <;>
    cases h2 : (res == "app" || res == "apps") <;>
    cases h3 : (res == "config" || res == "configs") <;>
    cases h4 : (res == "cred" || res == "creds") <;>
    cases h5 : (res == "param" || res == "params") <;>
    simp [h1, h2, h3, h4, h5, runStrategy]
  · intro fetch tz j res
    rfl

/-- Claim C5, witness: a `create` on a deployment response carrying a valid
envelope is still dumped generically. -/
theorem claim_C5_witness :
    print_request failFetch 0 (some deplListResp) "create" "deployment" false =
      Output.yamlText deplListResp :=
  claim_C5.1 failFetch 0 deplListResp "create" "deployment" (by decide)

/-- Claim C6: token resolution precedence of `get_token`
(src/ecp.py:128-141): an explicit readable token-file argument wins over
the `ECP_TOKEN` environment variable, which wins over the default per-user
file, which wins over the empty token; with all three present the explicit
file content (newlines removed) is used. -/
theorem claim_C6 :
    (∀ c e d, get_token (some (some c)) e d = Except.ok (stripNewlines c)) ∧
    (∀ t d, get_token none (some t) d = Except.ok t) ∧
    (∀ c, get_token none none (some c) = Except.ok (stripNewlines c)) ∧
    get_token none none none = Except.ok "" :=
  ⟨fun _ _ _ => rfl, fun _ _ => rfl, fun _ => rfl, rfl⟩

/-- Claim C7: with the raw-JSON flag set and a decodable body, the output
is exactly `json.dumps` of the parsed body with 2-space indentation
(src/ecp.py:171-173), for every fetcher, timezone, verb and resource kind,
and no further rendering occurs. -/
theorem claim_C7 : ∀ fetch tz j verb res,
    print_request fetch tz (some j) verb res true = Output.jsonDump j :=
  fun _ _ _ _ _ => rfl

/-- A deployment record like `deplRecord` but with `startedTime = 0`. -/
def deplRecordStarted : Json :=
  Json.obj [("startedTime", Json.num 0), ("reference", Json.str "r1"),
    ("applicationName", Json.str "app1"),
    ("_links", Json.obj [("status", Json.obj [("href", Json.str "https://portal/status/r1")])])]

/-- Claim C8, counterexample: in an environment whose local timezone is one
hour ahead of UTC (offset 3600 s), a record with `startedTime = 0` gets the
STARTED cell `01:00 01-01-1970` — the epoch converted to local time — and
not the claimed local midnight string `00:00 01-01-1970`:
`datetime.fromtimestamp` (src/ecp.py:44) applies the local offset. -/
theorem claim_C8_counterexample :
    deplRow okStatusFetch 3600 deplRecordStarted =
      Except.ok [Json.str "r1", Json.str "app1",
        Json.str "01:00 01-01-1970", Json.str "RUNNING"] ∧
    "01:00 01-01-1970" ≠ "00:00 01-01-1970" :=
  ⟨rfl, by decide⟩

/-- Claim C8, amended: the STARTED cell is the empty string when
`startedTime` is absent, and otherwise the epoch-millisecond value
converted to local time (per the environment's UTC offset) and formatted
hour:minute day-month-year; `startedTime = 0` renders as midnight Jan 1
1970 (`00:00 01-01-1970`) exactly in environments with offset zero, i.e.
when local time is UTC. -/
theorem claim_C8 :
    (∀ fetch tz depl row, depl.get? "startedTime" = none →
        deplRow fetch tz depl = Except.ok row → row[2]? = some (Json.str "")) ∧
    (∀ fetch tz ms depl row, depl.get? "startedTime" = some (Json.num ms) →
        deplRow fetch tz depl = Except.ok row →
        row[2]? = some (Json.str (formatStarted tz ms))) ∧
    formatStarted 0 0 = "00:00 01-01-1970" := by
  refine ⟨?_, ?_, by decide⟩
  · intro fetch tz depl row hst hrow
    rw [deplRow_eq_aux_of_none fetch tz depl hst] at hrow
    obtain ⟨ref, app, sr, -, hshape⟩ := deplRowAux_ok_shape _ _ _ _ hrow
    subst hshape
    rfl
  · intro fetch tz ms depl row hst hrow
    rw [deplRow_eq_aux_of_num fetch tz depl ms hst] at hrow
    obtain ⟨ref, app, sr, -, hshape⟩ := deplRowAux_ok_shape _ _ _ _ hrow
    subst hshape
    rfl

/-- Claim C8, witness: a record without `startedTime` yields an empty
STARTED cell; a record with `startedTime = 0` under offset zero yields the
formatted epoch. -/
theorem claim_C8_witness :
    ([Json.str "r1", Json.str "app1", Json.str "",
      Json.str "RUNNING"] : List Json)[2]? = some (Json.str "") ∧
    ([Json.str "r1", Json.str "app1", Json.str (formatStarted 0 0),
      Json.str "RUNNING"] : List Json)[2]? = some (Json.str (formatStarted 0 0)) :=
  ⟨claim_C8.1 okStatusFetch 0 deplRecord
      [Json.str "r1", Json.str "app1", Json.str "", Json.str "RUNNING"] rfl rfl,
   claim_C8.2.1 okStatusFetch 0 0 deplRecordStarted
      [Json.str "r1", Json.str "app1", Json.str (formatStarted 0 0),
        Json.str "RUNNING"] rfl rfl⟩

/-- Claim C9: the URL resolver accepts the extra kind `destroylogs`
(src/ecp.py:117-118), absent from the spec's enumeration, mapping it to
{base}/deployment/{name}/destroylogs for every name; it is outside the
driver's resource vocabulary, the driver never dispatches a request on it
(under `stop` the argument is reinterpreted as a deployment name), and
every direct invocation on it — any verb except `stop` and `login` — is
rejected with a usage error. -/
theorem claim_C9 :
    (∀ name, get_url "destroylogs" name =
        some (baseurl ++ "/deployment/" ++ name ++ "/destroylogs")) ∧
    resources.contains "destroylogs" = false ∧
    (∀ v r n, (mainFlow v r n).requestsResource "destroylogs" = false) ∧
    (∀ v n, v ≠ "stop" → v ≠ "login" →
        mainFlow v "destroylogs" n = MainResult.usageError) := by
  refine ⟨fun _ => rfl, by decide, ?_, ?_⟩
  · intro v r n
    cases hm : mainFlow v r n with
    | loginAction => rfl
    | usageError => rfl
    | request v2 r2 n2 =>
      have hin := mainFlow_request_in_resources v r n v2 r2 n2 hm
      unfold MainResult.requestsResource
      cases hbe : (r2 == "destroylogs") with
      | false => exact hbe
      | true =>
        have hr2 : r2 = "destroylogs" := eq_of_beq hbe
        subst hr2
        exact absurd hin (by decide)
  · intro v n hv1 hv2
    exact mainFlow_usageError_of_unknown v "destroylogs" n hv1 hv2 (by decide)

/-- Claim C9, witness: `get destroylogs` is rejected with a usage error. -/
theorem claim_C9_witness :
    mainFlow "get" "destroylogs" "" = MainResult.usageError :=
  claim_C9.2.2.2 "get" "" (by decide) (by decide)

/-- Claim C10: writing a newline-free token via login (which appends one
trailing newline to the default token file, src/ecp.py:24-25) and resolving
it back from the default file returns the identical token, because the read
removes every newline character (src/ecp.py:136) — as the second conjunct
shows on a file with an interior newline. -/
theorem claim_C10 :
    (∀ t : String, '\n' ∉ t.data →
        get_token none none (some (login_written_file t)) = Except.ok t) ∧
    stripNewlines "a\nb\n" = "ab" := by
  constructor
  · intro t h
    show Except.ok (stripNewlines (login_written_file t)) = Except.ok t
    congr 1
    cases t with
    | mk l =>
      show String.mk ((String.mk l ++ "\n").data.filter _) = String.mk l
      congr 1
      have hd : (String.mk l ++ "\n").data = l ++ ['\n'] := rfl
      rw [hd, List.filter_append]
      have h1 : List.filter (fun c => c != '\n') ['\n'] = [] := rfl
      rw [h1, List.append_nil]
      apply List.filter_eq_self.mpr
      intro a ha
      exact bne_iff_ne.mpr (fun he => h (he ▸ ha))
  · rfl

/-- Claim C10, witness: the round trip on a concrete token. -/
theorem claim_C10_witness :
    get_token none none (some (login_written_file "tok123")) = Except.ok "tok123" :=
  claim_C10.1 "tok123" (by decide)
